import Mathlib

/-
Verification of the rpi-object-detection navigation core: a shallow
embedding of the alert-arbitration pipeline (src/src/navigation), namely
the ultrasonic sensor protocol (sensor.py), the per-frame arbitration and
forwarding logic (navigation_system.py) and the WebSocket broadcast hub
(websocket_server.py), together with theorems about their behaviour.

Machine floats of the Python source are modelled as rationals, wall-clock
times as rationals, and the GPIO echo line as an explicit trace of
(level, time) poll samples.
-/

set_option maxRecDepth 4000

namespace RpiNav

/-! ## Configuration constants (config_rpi.py) -/

/-- config.ULTRASONIC_CRITICAL_DISTANCE = 2.0 meters. -/
def ULTRASONIC_CRITICAL_DISTANCE : ℚ := 2

/-- config.ULTRASONIC_WARNING_DISTANCE = 3.0 meters. -/
def ULTRASONIC_WARNING_DISTANCE : ℚ := 3

/-- UltrasonicSensor.MAX_DISTANCE = 4.0 meters. -/
def MAX_DISTANCE : ℚ := 4

/-- UltrasonicSensor.TIMEOUT = 0.04 seconds (40 ms). -/
def TIMEOUT : ℚ := 1/25

/-! ## String helpers

Python formats distances with an f-string `...:.1f` and normalises inbound
text commands with `str.lower().strip()`.  The corresponding Lean string
functions are defined structurally over the character list so that they
evaluate inside the kernel. -/

/-- Models Python `format(q, '.1f')` for a nonnegative value: the value is
rendered with exactly one digit after the decimal point (rounding to the
nearest tenth). -/
def fmt1 (q : ℚ) : String :=
  let n : ℤ := round (q * 10)
  toString (n / 10) ++ "." ++ toString (n % 10)

/-- ASCII lower-casing of one character, as Python `str.lower` does for the
ASCII command strings handled by the server. -/
def asciiLower (c : Char) : Char :=
  if 'A' ≤ c ∧ c ≤ 'Z' then Char.ofNat (c.toNat + 32) else c

/-- The whitespace characters removed by Python `str.strip()`. -/
def isPySpace (c : Char) : Bool :=
  c = ' ' || c = '\t' || c = '\n' || c = '\x0d' || c = '\x0b' || c = '\x0c'

/-- Models Python `s.lower().strip()`. -/
def pyLowerStrip (s : String) : String :=
  String.mk ((((s.data.map asciiLower).dropWhile isPySpace).reverse.dropWhile
    isPySpace).reverse)

/-- Models Python `s.startswith('\x7b')` (an opening curly brace). -/
def startsWithBrace (s : String) : Bool :=
  match s.data with
  | [] => false
  | c :: _ => c = '\x7b'

/-- Python truthiness of an optional string: `None` and the empty string
are falsy, every other string is truthy. -/
def strTruthy : Option String → Bool
  | none => false
  | some s => s ≠ ""

/-- Models Python `message if message else fallback`. -/
def msg_or (message : Option String) (fallback : String) : String :=
  match message with
  | some s => if s = "" then fallback else s
  | none => fallback

/-! ## AlertArbiter (navigation_system.py, process_frame lines 165-196)

`decide_alert` is the arbitration stage of `NavigationSystem.process_frame`:
from the ordered center-zone class names, the averaged ultrasonic distance
(`None` = no reading) and the zone-based generator's message it computes
the alert message and its priority flag.  The severity labels mirror the
alert_type strings used when the decision is forwarded to the hub
("critical", "warning") and the spec's "info" for the zone fallback. -/

inductive Severity where
  | critical
  | warning
  | info
deriving DecidableEq

structure Decision where
  severity : Severity
  message : String
  is_priority : Bool
deriving DecidableEq

/-- Lines 166-169: `front_objects = [zd.detection.class_name for zd in
zone_dict['center'][:2]]` — the first two center-zone class names. -/
def front_objects (center : List String) : List String :=
  center.take 2

/-- Lines 172-196 of process_frame: the three mutually exclusive arbitration
rules, evaluated in order (critical, warning, zone fallback). -/
def decide_alert (center : List String) (ultrasonic_distance : Option ℚ)
    (zone_message : Option String) : Option Decision :=
  let fo := front_objects center
  match ultrasonic_distance with
  | some d =>
    if d < ULTRASONIC_CRITICAL_DISTANCE then
      some { severity := Severity.critical,
             message := (match fo with
               | obj_name :: _ =>
                 "Stop! " ++ obj_name ++ " ahead at " ++ fmt1 d ++ " meters"
               | [] => "Stop! Obstacle ahead at " ++ fmt1 d ++ " meters"),
             is_priority := true }
    else if d < ULTRASONIC_WARNING_DISTANCE then
      some { severity := Severity.warning,
             message := (match fo with
               | obj_name :: _ =>
                 "Warning: " ++ obj_name ++ " in front at " ++ fmt1 d ++ " meters"
               | [] => "Warning: Obstacle in front at " ++ fmt1 d ++ " meters"),
             is_priority := true }
    else
      zone_message.map (fun m =>
        { severity := Severity.info, message := m, is_priority := false })
  | none =>
      zone_message.map (fun m =>
        { severity := Severity.info, message := m, is_priority := false })

/-! ## MainLoop forwarding (navigation_system.py, process_frame lines 198-221) -/

/-- The externally visible effects of one processed cycle: a TTS
announcement handed to `AudioAnnouncer.announce(message, priority)` or a
WebSocket broadcast handed to `broadcast_alert_sync(alert_type, message,
distance, object_name)`. -/
inductive Action where
  | announce (message : String) (priority : Bool)
  | publish (alert_type : String) (message : String) (distance : Option ℚ)
      (object_name : String)
deriving DecidableEq

/-- Lines 165-221 of `NavigationSystem.process_frame`, as the ordered list
of announce/publish effects of one cycle.  Inputs: the priority-ordered
center-zone class names, the averaged ultrasonic distance, the zone
generator's message, and whether `self.ws_server` exists and its `running`
flag is set. -/
def process_frame (center : List String) (ultrasonic_distance : Option ℚ)
    (zone_message : Option String) (ws_present ws_running : Bool) :
    List Action :=
  let fo := front_objects center
  let dec := decide_alert center ultrasonic_distance zone_message
  let message : Option String := dec.map Decision.message
  let is_priority : Bool :=
    match dec with
    | some d2 => d2.is_priority
    | none => false
  let announce_acts : List Action :=
    match message with
    | some m => if m = "" then [] else [Action.announce m is_priority]
    | none => []
  let publish_acts : List Action :=
    if ws_present && ws_running then
      match ultrasonic_distance with
      | some d =>
        if d < ULTRASONIC_CRITICAL_DISTANCE then
          let obj_name := fo.headD "obstacle"
          [Action.publish "critical" (msg_or message ("Critical: " ++ obj_name))
            (some d) obj_name]
        else if d < ULTRASONIC_WARNING_DISTANCE then
          let obj_name := fo.headD "obstacle"
          [Action.publish "warning" (msg_or message ("Warning: " ++ obj_name))
            (some d) obj_name]
        else []
      | none => []
    else []
  announce_acts ++ publish_acts

/-! ## RangeSensor (sensor.py, UltrasonicSensor)

`read_distance` polls the echo line for a rising edge and then a falling
edge, each bounded by `TIMEOUT`.  A poll iteration reads the line level
and, while the loop continues, reads the clock; a run of the loop is
therefore modelled by a finite trace of `(level, time)` pairs.  The outer
`Option` distinguishes a trace too short to decide the loop (`none`, a
model artefact) from an actual return (`some r`, with `r = none` for the
Python `return None`). -/

inductive EdgeResult where
  | edge (t : ℚ)
  | timedOut (t : ℚ)
deriving DecidableEq

/-- One `while GPIO.input(echo) == lvl:` polling loop of read_distance
(lines 94-105): on a level different from `lvl` the loop exits with the
last recorded clock value `pulseT`; otherwise the clock is read into
`pulseT` and the loop returns `None` as soon as the elapsed time since
`timeoutStart` exceeds `TIMEOUT`. -/
def waitWhile (lvl : Bool) (timeoutStart : ℚ) (pulseT : ℚ) :
    List (Bool × ℚ) → Option EdgeResult
  | [] => none
  | (l, t) :: rest =>
    if l ≠ lvl then some (EdgeResult.edge pulseT)
    else if t - timeoutStart > TIMEOUT then some (EdgeResult.timedOut t)
    else waitWhile lvl timeoutStart t rest

/-- `UltrasonicSensor.read_distance` (lines 75-125): after the trigger
pulse, wait for the echo start (clock `s1`, trace `tr1`), then for the
echo end (clock `s2`, trace `tr2`); convert the pulse duration to a
distance at 343 m/s and validate it against `[0.02, MAX_DISTANCE]`. -/
def read_distance_core (enabled : Bool) (s1 : ℚ) (tr1 : List (Bool × ℚ))
    (s2 : ℚ) (tr2 : List (Bool × ℚ)) : Option (Option ℚ) :=
  if enabled = false then some none
  else
    match waitWhile false s1 s1 tr1 with
    | none => none
    | some (EdgeResult.timedOut _) => some none
    | some (EdgeResult.edge pulse_start) =>
      match waitWhile true s2 pulse_start tr2 with
      | none => none
      | some (EdgeResult.timedOut _) => some none
      | some (EdgeResult.edge pulse_end) =>
        let distance := (pulse_end - pulse_start) * 343 / 2
        if distance > MAX_DISTANCE ∨ distance < 1/50 then some none
        else some (some distance)

/-- A poll trace advances by at most `d` seconds per iteration, starting
from the reference instant `prev`. -/
def gaps_ok (d : ℚ) : ℚ → List (Bool × ℚ) → Bool
  | _, [] => true
  | prev, (_, t) :: rest => decide (t ≤ prev + d) && gaps_ok d t rest

/-- The mutable sensor state relevant to the claims: the `enabled` flag
(`last_distance` and `last_read_time` are not read by any claim). -/
structure SensorState where
  enabled : Bool
deriving DecidableEq

/-- `UltrasonicSensor._setup_gpio` (lines 54-73): any exception raised by
the GPIO calls is caught and sets `self.enabled = False`. -/
def setup_gpio (st : SensorState) (hw_ok : Bool) : SensorState :=
  if hw_ok then st else { st with enabled := false }

/-- The hardware outcome of one `read_distance` call: either some GPIO
call raises, or the pulse measurement completes with the given clock
values and echo-line traces. -/
inductive ReadEvent where
  | raises
  | completes (s1 : ℚ) (tr1 : List (Bool × ℚ)) (s2 : ℚ) (tr2 : List (Bool × ℚ))

/-- `read_distance` as a function of the sensor state and the hardware
outcome: a disabled sensor returns `None` immediately (line 82); an
exception during the read is caught and returns `None` (lines 123-125)
without modifying the state — the `except` clause only prints. -/
def read_distance_ev (st : SensorState) (ev : ReadEvent) : Option (Option ℚ) :=
  if st.enabled = false then some none
  else
    match ev with
    | ReadEvent.raises => some none
    | ReadEvent.completes s1 tr1 s2 tr2 => read_distance_core true s1 tr1 s2 tr2

/-- A sequence of `read_distance` calls against a fixed sensor state (no
statement in `read_distance` ever changes `enabled`). -/
def run_samples (st : SensorState) : List ReadEvent → List (Option (Option ℚ))
  | [] => []
  | ev :: evs => read_distance_ev st ev :: run_samples st evs

/-- `UltrasonicSensor.get_average_distance` (lines 127-150) over the
results of the individual `read_distance` calls: `None` when the sensor is
disabled, otherwise the valid readings are collected and averaged, with
`None` when every sample failed. -/
def get_average_distance (enabled : Bool) (sample_results : List (Option ℚ)) :
    Option ℚ :=
  if enabled = false then none
  else
    let readings := sample_results.filterMap id
    if readings = [] then none
    else some (readings.sum / readings.length)

/-! ## BroadcastHub (websocket_server.py, NavigationWebSocketServer)

Clients are identified by natural numbers; the outcome of `await
client.send(...)` for this publish call is given by a predicate
`sendOk` (`false` = the send raises `ConnectionClosed` or any other
exception). -/

/-- The `for client in self.connected_clients:` loop of `broadcast_alert`
(lines 138-147): returns the clients that received the event, in
iteration order, and the `disconnected` set collected from failed sends. -/
def fan_out (sendOk : ℕ → Bool) : List ℕ → List ℕ × List ℕ
  | [] => ([], [])
  | c :: rest =>
    let r := fan_out sendOk rest
    if sendOk c then (c :: r.1, r.2) else (r.1, c :: r.2)

/-- `NavigationWebSocketServer.broadcast_alert` (lines 114-150): a no-op
with no registered clients, otherwise fan out to every registered client
and then remove the disconnected ones (`self.connected_clients -=
disconnected`).  Returns (delivered clients, new registry). -/
def broadcast_alert (clients : List ℕ) (sendOk : ℕ → Bool) :
    List ℕ × List ℕ :=
  if clients = [] then ([], clients)
  else
    let r := fan_out sendOk clients
    (r.1, clients.filter (fun c => decide (c ∉ r.2)))

/-- The hub state relevant to the lifecycle claims: whether `self.loop`
has been created, the `running` flag, the `_stop_event` flag, whether the
server thread was started, and the client registry. -/
structure WSState where
  loop_exists : Bool
  running : Bool
  stop_event : Bool
  thread_started : Bool
  clients : List ℕ
deriving DecidableEq

/-- The state right after `__init__` (lines 22-37): no loop, not running,
stop event clear, no thread, empty registry. -/
def initial_state : WSState :=
  { loop_exists := false, running := false, stop_event := false,
    thread_started := false, clients := [] }

/-- `NavigationWebSocketServer.stop` (lines 210-220): clears `running`,
sets `_stop_event`, and joins the server thread with a 2-second bound when
one exists (`if self.server_thread:`).  No statement in the body can
raise, so the result is always `Except.ok`. -/
def stop (st : WSState) : Except String WSState :=
  Except.ok { st with running := false, stop_event := true }

/-- `NavigationWebSocketServer.broadcast_alert_sync` (lines 152-169):
schedules `broadcast_alert` onto the serving loop only when the loop
exists, `running` is set and `_stop_event` is clear; otherwise it is a
no-op.  Returns the new state and the delivered clients (`none` when
nothing was scheduled). -/
def broadcast_alert_sync (st : WSState) (sendOk : ℕ → Bool) :
    WSState × Option (List ℕ) :=
  if st.loop_exists && st.running && !st.stop_event then
    let r := broadcast_alert st.clients sendOk
    ({ st with clients := r.2 }, some r.1)
  else (st, none)

/-! ## Inbound client messages (websocket_server.py, handle_client lines 61-112)

The `json.loads` call is external; its outcome on a brace-initial frame is
given by a `ParseOutcome`: a JSON object with its `data.get("command", "")`
value, a valid JSON value that is not an object (so `.get` raises, caught
by `except Exception`), or a `json.JSONDecodeError`. -/

inductive ParseOutcome where
  | ok (command : String)
  | notObject
  | malformed
deriving DecidableEq

/-- A reply sent back to the client: the bare-text `"pong"`, the JSON pong
envelope, or the JSON status envelope. -/
inductive Reply where
  | pongText
  | pongEnvelope (timestamp : ℚ)
  | statusEnvelope (clients : ℕ) (server_running : Bool) (timestamp : ℚ)
deriving DecidableEq

/-- The body of the `async for message in websocket:` loop (lines 66-105):
a frame not starting with a brace is handled as plain text (`"ping"` after
lower/strip gets a bare `"pong"`, anything else is ignored); a
brace-initial frame goes through `json.loads`, answering the `ping` and
`status` commands and ignoring everything else, including malformed
JSON. -/
def handle_inbound (nclients : ℕ) (running : Bool) (ts : ℚ) (s : String)
    (parse : ParseOutcome) : Option Reply :=
  if startsWithBrace s = false then
    if pyLowerStrip s = "ping" then some Reply.pongText else none
  else
    match parse with
    | ParseOutcome.ok command =>
      if command = "ping" then some (Reply.pongEnvelope ts)
      else if command = "status" then
        some (Reply.statusEnvelope nclients running ts)
      else none
    | ParseOutcome.notObject => none
    | ParseOutcome.malformed => none

/-- One inbound frame processed inside `handle_client`'s message loop:
the registry is never modified there (clients are removed only by the
`finally:` clause when the connection itself errors or closes), and the
reply is computed by `handle_inbound` with `len(self.connected_clients)`
and the running flag. -/
def client_session_step (registry : List ℕ) (running : Bool) (ts : ℚ)
    (s : String) (parse : ParseOutcome) : List ℕ × Option Reply :=
  (registry, handle_inbound registry.length running ts s parse)

/-! ## Helper lemmas -/

theorem fan_out_fst (sendOk : ℕ → Bool) (l : List ℕ) :
    (fan_out sendOk l).1 = l.filter sendOk := by
  induction l with
  | nil => rfl
  | cons c rest ih =>
    by_cases h : sendOk c = true <;>
      simp [fan_out, List.filter_cons, h, ih]

theorem fan_out_snd_mem (sendOk : ℕ → Bool) (l : List ℕ) (c : ℕ) :
    c ∈ (fan_out sendOk l).2 ↔ c ∈ l ∧ sendOk c = false := by
  induction l with
  | nil => simp [fan_out]
  | cons a rest ih =>
    cases hs : sendOk a with
    | true =>
      have hstep : (fan_out sendOk (a :: rest)).2 = (fan_out sendOk rest).2 := by
        simp [fan_out, hs]
      rw [hstep, ih, List.mem_cons]
      constructor
      · rintro ⟨hm, hf⟩
        exact ⟨Or.inr hm, hf⟩
      · rintro ⟨hm | hm, hf⟩
        · subst hm
          rw [hs] at hf
          cases hf
        · exact ⟨hm, hf⟩
    | false =>
      have hstep : (fan_out sendOk (a :: rest)).2 =
          a :: (fan_out sendOk rest).2 := by
        simp [fan_out, hs]
      rw [hstep, List.mem_cons, List.mem_cons, ih]
      constructor
      · rintro (hm | ⟨hm, hf⟩)
        · subst hm
          exact ⟨Or.inl rfl, hs⟩
        · exact ⟨Or.inr hm, hf⟩
      · rintro ⟨hm | hm, hf⟩
        · exact Or.inl hm
        · exact Or.inr ⟨hm, hf⟩

theorem broadcast_alert_fst (clients : List ℕ) (sendOk : ℕ → Bool) :
    (broadcast_alert clients sendOk).1 = clients.filter sendOk := by
  by_cases h : clients = []
  · subst h
    rfl
  · simp only [broadcast_alert, if_neg h]
    exact fan_out_fst sendOk clients

theorem broadcast_alert_snd (clients : List ℕ) (sendOk : ℕ → Bool) :
    (broadcast_alert clients sendOk).2 = clients.filter sendOk := by
  by_cases h : clients = []
  · subst h
    rfl
  · simp only [broadcast_alert, if_neg h]
    refine List.filter_congr ?_
    intro c hc
    by_cases hs : sendOk c = true <;>
      simp [fan_out_snd_mem, hs, hc]

/-! ## C1: arbitration precedence -/

/-- C1: the arbitration decision evaluates three mutually exclusive rules in
strict precedence: a valid distance below the critical threshold yields a
critical alert naming the top center-zone object (or the generic obstacle),
independently of the zone generator; else below the warning threshold a
warning alert with the same naming rule; else (including no reading) exactly
the zone generator's message with severity info. -/
theorem c1_arbitration_precedence (center : List String)
    (zone_message : Option String) (d : ℚ) :
    (d < ULTRASONIC_CRITICAL_DISTANCE →
      decide_alert center (some d) zone_message =
        some { severity := Severity.critical,
               message := "Stop! " ++ (front_objects center).headD "Obstacle" ++
                 " ahead at " ++ fmt1 d ++ " meters",
               is_priority := true }) ∧
    (¬ d < ULTRASONIC_CRITICAL_DISTANCE → d < ULTRASONIC_WARNING_DISTANCE →
      decide_alert center (some d) zone_message =
        some { severity := Severity.warning,
               message := "Warning: " ++ (front_objects center).headD "Obstacle" ++
                 " in front at " ++ fmt1 d ++ " meters",
               is_priority := true }) ∧
    (¬ d < ULTRASONIC_CRITICAL_DISTANCE → ¬ d < ULTRASONIC_WARNING_DISTANCE →
      decide_alert center (some d) zone_message =
        zone_message.map (fun m =>
          { severity := Severity.info, message := m, is_priority := false })) ∧
    (decide_alert center none zone_message =
        zone_message.map (fun m =>
          { severity := Severity.info, message := m, is_priority := false })) := by
  refine ⟨?_, ?_, ?_, rfl⟩
  · intro hc
    cases center with
    | nil => simp [decide_alert, front_objects, hc]
    | cons a rest => simp [decide_alert, front_objects, hc]
  · intro hc hw
    cases center with
    | nil => simp [decide_alert, front_objects, hc, hw]
    | cons a rest => simp [decide_alert, front_objects, hc, hw]
  · intro hc hw
    simp [decide_alert, hc, hw]

/-- C1 witness: distance 1.5 with top center object "chair" yields the
critical alert with message "Stop! chair ahead at 1.5 meters", whatever the
zone generator produced. -/
theorem c1_witness :
    decide_alert ["chair"] (some (3/2)) (some "path is clear") =
      some { severity := Severity.critical,
             message := "Stop! chair ahead at 1.5 meters",
             is_priority := true } := by
  have h := (c1_arbitration_precedence ["chair"] (some "path is clear") (3/2)).1
    (by norm_num [ULTRASONIC_CRITICAL_DISTANCE])
  rw [h]
  norm_num [fmt1, round_eq, front_objects]
  rfl

/-! ## C4: range validity of a single reading -/

/-- C4: a pulse measurement with rising-edge time t0 and falling-edge time
t1, neither edge wait having timed out, yields the distance
(t1 - t0) * 343 / 2 when that value lies in [0.02, 4.0] meters, and None
when it lies outside that interval or either edge wait timed out — never a
numeric substitute. -/
theorem c4_range_validity (s1 s2 : ℚ) (tr1 tr2 : List (Bool × ℚ)) :
    (∀ t0 t1, waitWhile false s1 s1 tr1 = some (EdgeResult.edge t0) →
      waitWhile true s2 t0 tr2 = some (EdgeResult.edge t1) →
      ((1/50 ≤ (t1 - t0) * 343 / 2 ∧ (t1 - t0) * 343 / 2 ≤ MAX_DISTANCE →
         read_distance_core true s1 tr1 s2 tr2 =
           some (some ((t1 - t0) * 343 / 2))) ∧
       ((t1 - t0) * 343 / 2 < 1/50 ∨ MAX_DISTANCE < (t1 - t0) * 343 / 2 →
         read_distance_core true s1 tr1 s2 tr2 = some none))) ∧
    (∀ t, waitWhile false s1 s1 tr1 = some (EdgeResult.timedOut t) →
      read_distance_core true s1 tr1 s2 tr2 = some none) ∧
    (∀ t0 t, waitWhile false s1 s1 tr1 = some (EdgeResult.edge t0) →
      waitWhile true s2 t0 tr2 = some (EdgeResult.timedOut t) →
      read_distance_core true s1 tr1 s2 tr2 = some none) := by
  refine ⟨?_, ?_, ?_⟩
  · intro t0 t1 h1 h2
    constructor
    · intro hin
      have hno : ¬((t1 - t0) * 343 / 2 > MAX_DISTANCE ∨
          (t1 - t0) * 343 / 2 < 1/50) := by
        push_neg
        exact ⟨hin.2, hin.1⟩
      rw [read_distance_core]
      simp only [h1, h2]
      rw [if_neg hno]
      rfl
    · intro hout
      have hyes : (t1 - t0) * 343 / 2 > MAX_DISTANCE ∨
          (t1 - t0) * 343 / 2 < 1/50 := by
        rcases hout with h | h
        · exact Or.inr h
        · exact Or.inl h
      rw [read_distance_core]
      simp only [h1, h2]
      rw [if_pos hyes]
      rfl
  · intro t h1
    rw [read_distance_core]
    simp only [h1]
    rfl
  · intro t0 t h1 h2
    rw [read_distance_core]
    simp only [h1, h2]
    rfl

/-- C4 witness: a rising edge at 0 and a falling edge at 0.01 s give
distance 0.01 * 343 / 2 = 1.715 m, inside the valid range, surfaced as a
reading. -/
theorem c4_witness :
    read_distance_core true 0 [(true, 0)] 0 [(true, 1/100), (false, 0)] =
      some (some (343/200)) := by
  have h := ((c4_range_validity 0 0 [(true, 0)] [(true, 1/100), (false, 0)]).1
      0 (1/100)
      (by norm_num [waitWhile])
      (by norm_num [waitWhile, TIMEOUT])).1
    (by norm_num [MAX_DISTANCE])
  rw [h]
  norm_num

/-! ## C5: averaging -/

/-- C5: get_average_distance discards the failed samples and returns the
arithmetic mean of the valid ones, and returns None when every sample
failed (and when the sensor is disabled, in which case every sample is
itself None). -/
theorem c5_averaging (samples : List (Option ℚ)) (vs : List ℚ)
    (hvs : samples.filterMap id = vs) :
    (vs = [] → get_average_distance true samples = none) ∧
    (vs ≠ [] → get_average_distance true samples =
      some (vs.sum / vs.length)) ∧
    (get_average_distance false samples = none) := by
  refine ⟨?_, ?_, rfl⟩
  · intro hnil
    simp [get_average_distance, hvs, hnil]
  · intro hne
    simp [get_average_distance, hvs, hne]

/-- C5 witness: samples [1.0, None, 1.2] average to 1.1. -/
theorem c5_witness :
    get_average_distance true [some 1, none, some (6/5)] = some (11/10) := by
  have h := (c5_averaging [some 1, none, some (6/5)] [1, 6/5] rfl).2.1
    (by simp)
  rw [h]
  norm_num

/-! ## C3: fan-out isolation -/

/-- C3: every client whose send succeeds receives exactly one copy of the
event; a failed send removes only that client from the registry and blocks
nobody else; a later publish reaches exactly the remaining clients; with no
registered clients the publish is a no-op. -/
theorem c3_fanout_isolation (clients : List ℕ) (sendOk sendOk2 : ℕ → Bool)
    (hnd : clients.Nodup) :
    ((broadcast_alert clients sendOk).1 = clients.filter sendOk) ∧
    (∀ c ∈ clients, sendOk c = true →
      (broadcast_alert clients sendOk).1.count c = 1) ∧
    ((broadcast_alert clients sendOk).2 = clients.filter sendOk) ∧
    (broadcast_alert [] sendOk = ([], [])) ∧
    ((broadcast_alert (broadcast_alert clients sendOk).2 sendOk2).1 =
      (clients.filter sendOk).filter sendOk2) := by
  refine ⟨broadcast_alert_fst clients sendOk, ?_,
    broadcast_alert_snd clients sendOk, rfl, ?_⟩
  · intro c hc hs
    rw [broadcast_alert_fst]
    exact List.count_eq_one_of_mem (hnd.filter _)
      (List.mem_filter.mpr ⟨hc, hs⟩)
  · rw [broadcast_alert_snd, broadcast_alert_fst]

/-- C3 witness: three clients where client 2's send fails — clients 1 and 3
each get one copy, only client 2 is removed, and the next publish reaches
exactly the remaining two. -/
theorem c3_witness :
    ((broadcast_alert [1, 2, 3] (fun c => decide (c ≠ 2))).1 = [1, 3]) ∧
    ((broadcast_alert [1, 2, 3] (fun c => decide (c ≠ 2))).1.count 1 = 1) ∧
    ((broadcast_alert [1, 2, 3] (fun c => decide (c ≠ 2))).2 = [1, 3]) ∧
    ((broadcast_alert
        (broadcast_alert [1, 2, 3] (fun c => decide (c ≠ 2))).2
        (fun _ => true)).1 = [1, 3]) := by
  have h := c3_fanout_isolation [1, 2, 3] (fun c => decide (c ≠ 2))
    (fun _ => true) (by decide)
  refine ⟨?_, ?_, ?_, ?_⟩
  · rw [h.1]
    decide
  · exact h.2.1 1 (by decide) (by decide)
  · rw [h.2.2.1]
    decide
  · rw [h.2.2.2.2]
    decide

/-! ## C6: hardware fault degradation -/

/-- C6 counterexample: a hardware error during a read (first sample) is
caught and returns None, but the sensor is not degraded to a disabled
state — the immediately following sample returns the numeric reading
1.715 m, not NoReading. -/
theorem c6_counterexample :
    run_samples { enabled := true }
      [ReadEvent.raises,
       ReadEvent.completes 0 [(true, 0)] 0 [(true, 1/100), (false, 0)]] =
      [some none, some (some (343/200))] ∧
    (some (some (343/200)) : Option (Option ℚ)) ≠ some none := by
  constructor
  · norm_num [run_samples, read_distance_ev, read_distance_core, waitWhile,
      TIMEOUT, MAX_DISTANCE]
  · simp

/-- C6 amended: a hardware error during setup degrades the sensor to a
disabled state in which every subsequent read and every average returns
NoReading; a hardware error during a read is caught and surfaces as
NoReading for that read only, without disabling the sensor; in neither case
does a fault propagate as an exception. -/
theorem c6_amended (st : SensorState) (evs : List ReadEvent)
    (samples : List (Option ℚ)) :
    ((setup_gpio st false).enabled = false) ∧
    (∀ r ∈ run_samples (setup_gpio st false) evs, r = some none) ∧
    (get_average_distance (setup_gpio st false).enabled samples = none) ∧
    (read_distance_ev st ReadEvent.raises = some none) := by
  have he : (setup_gpio st false).enabled = false := by
    simp [setup_gpio]
  have hall : ∀ evs2 : List ReadEvent,
      ∀ r ∈ run_samples (setup_gpio st false) evs2, r = some none := by
    intro evs2
    induction evs2 with
    | nil =>
      intro r hr
      simp [run_samples] at hr
    | cons e es ih =>
      intro r hr
      rw [run_samples] at hr
      rcases List.mem_cons.mp hr with h | h
      · rw [h]
        simp [read_distance_ev, he]
      · exact ih r h
  refine ⟨he, hall evs, ?_, ?_⟩
  · rw [get_average_distance, if_pos he]
  · cases hen : st.enabled <;> simp [read_distance_ev, hen]

/-- C6 witness: instantiation of the amended claim at a concrete sensor
state, event list and sample list. -/
theorem c6_witness :
    run_samples (setup_gpio { enabled := true } false) [ReadEvent.raises] =
      [some none] ∧
    get_average_distance (setup_gpio { enabled := true } false).enabled
      [some 1] = none := by
  have h := c6_amended { enabled := true } [ReadEvent.raises] [some 1]
  refine ⟨?_, h.2.2.1⟩
  have hm := h.2.1 (read_distance_ev (setup_gpio { enabled := true } false)
    ReadEvent.raises) (by simp [run_samples])
  simp [run_samples, hm]

/-! ## C7: timeout bound -/

/-- One polling loop whose line level never leaves `lvl` returns `None` at
the first poll past the deadline, which falls within one poll gap of
`timeoutStart + TIMEOUT`. -/
theorem waitWhile_stuck (lvl : Bool) (dd ts : ℚ) (tr : List (Bool × ℚ)) :
    ∀ p prev : ℚ, (∀ e ∈ tr, e.1 = lvl) → gaps_ok dd prev tr = true →
    prev ≤ ts + TIMEOUT → (∃ e ∈ tr, e.2 > ts + TIMEOUT) →
    ∃ t, waitWhile lvl ts p tr = some (EdgeResult.timedOut t) ∧
      t ≤ ts + TIMEOUT + dd := by
  induction tr with
  | nil =>
    intro p prev _ _ _ hex
    simp at hex
  | cons e rest ih =>
    intro p prev hlev hg hprev hex
    obtain ⟨l, t⟩ := e
    have hl : l = lvl := hlev (l, t) (List.mem_cons_self _ _)
    have hg2 : t ≤ prev + dd ∧ gaps_ok dd t rest = true := by
      simpa [gaps_ok] using hg
    by_cases hto : t - ts > TIMEOUT
    · refine ⟨t, ?_, by linarith [hg2.1]⟩
      simp only [waitWhile]
      rw [if_neg (by simp [hl]), if_pos hto]
    · have ht : t ≤ ts + TIMEOUT := by
        have := not_lt.mp hto
        linarith
      have hstep : waitWhile lvl ts p ((l, t) :: rest) =
          waitWhile lvl ts t rest := by
        simp only [waitWhile]
        rw [if_neg (by simp [hl]), if_neg hto]
      rw [hstep]
      obtain ⟨e2, he2, hgt⟩ := hex
      have he2r : e2 ∈ rest := by
        rcases List.mem_cons.mp he2 with h | h
        · exfalso
          rw [h] at hgt
          simp at hgt
          linarith
        · exact h
      exact ih t t (fun e he => hlev e (List.mem_cons_of_mem _ he))
        hg2.2 ht ⟨e2, he2r, hgt⟩

/-- C7: when the echo line never changes state (constant level c on both
polling loops), read_distance returns NoReading, and the poll at which the
loop gives up happens no later than 2 × TIMEOUT after the first loop's
reference instant s1 — each loop terminates once its elapsed time exceeds
TIMEOUT.  Hypotheses: consecutive polls are at most dd apart with
2·dd ≤ TIMEOUT, the second clock read s2 follows s1 within one gap, and
each trace extends past its deadline. -/
theorem c7_timeout_bound (c : Bool) (dd s1 s2 : ℚ)
    (tr1 tr2 : List (Bool × ℚ))
    (hd0 : 0 ≤ dd) (hdT : 2 * dd ≤ TIMEOUT)
    (hlev1 : ∀ e ∈ tr1, e.1 = c) (hlev2 : ∀ e ∈ tr2, e.1 = c)
    (hg1 : gaps_ok dd s1 tr1 = true) (hg2 : gaps_ok dd s2 tr2 = true)
    (hs1 : s1 ≤ s2) (hs2 : s2 ≤ s1 + dd)
    (hex1 : ∃ e ∈ tr1, e.2 > s1 + TIMEOUT)
    (hex2 : ∃ e ∈ tr2, e.2 > s2 + TIMEOUT) :
    read_distance_core true s1 tr1 s2 tr2 = some none ∧
    ∃ t, t ≤ s1 + 2 * TIMEOUT ∧
      (waitWhile false s1 s1 tr1 = some (EdgeResult.timedOut t) ∨
       (waitWhile false s1 s1 tr1 = some (EdgeResult.edge s1) ∧
        waitWhile true s2 s1 tr2 = some (EdgeResult.timedOut t))) := by
  have hT : (0:ℚ) < TIMEOUT := by norm_num [TIMEOUT]
  cases c with
  | false =>
    obtain ⟨t, hw, hb⟩ := waitWhile_stuck false dd s1 tr1 s1 s1 hlev1 hg1
      (by linarith) hex1
    refine ⟨?_, t, by linarith, Or.inl hw⟩
    rw [read_distance_core]
    simp only [hw]
    rfl
  | true =>
    obtain ⟨e1, he1, _⟩ := hex1
    have hne : tr1 ≠ [] := by
      intro h
      rw [h] at he1
      simp at he1
    obtain ⟨⟨l, t⟩, rest, rfl⟩ : ∃ a r, tr1 = a :: r := by
      rcases tr1 with _ | ⟨a, r⟩
      · exact absurd rfl hne
      · exact ⟨a, r, rfl⟩
    have hl : l = true := hlev1 (l, t) (List.mem_cons_self _ _)
    have hfirst : waitWhile false s1 s1 ((l, t) :: rest) =
        some (EdgeResult.edge s1) := by
      simp only [waitWhile]
      rw [if_pos (by simp [hl])]
    obtain ⟨t2, hw2, hb2⟩ := waitWhile_stuck true dd s2 tr2 s1 s2 hlev2 hg2
      (by linarith) hex2
    refine ⟨?_, t2, by linarith, Or.inr ⟨hfirst, hw2⟩⟩
    rw [read_distance_core]
    simp only [hfirst, hw2]
    rfl

/-- C7 witness: an echo line stuck low, polled every 10 ms, makes
read_distance return NoReading. -/
theorem c7_witness :
    read_distance_core true 0
      [(false, 1/100), (false, 2/100), (false, 3/100), (false, 1/25),
       (false, 1/20)]
      (1/100)
      [(false, 2/100), (false, 3/100), (false, 1/25), (false, 1/20),
       (false, 3/50)] = some none :=
  (c7_timeout_bound false (1/100) 0 (1/100)
    [(false, 1/100), (false, 2/100), (false, 3/100), (false, 1/25),
     (false, 1/20)]
    [(false, 2/100), (false, 3/100), (false, 1/25), (false, 1/20),
     (false, 3/50)]
    (by norm_num) (by norm_num [TIMEOUT]) (by decide) (by decide)
    (by norm_num [gaps_ok]) (by norm_num [gaps_ok])
    (by norm_num) (by norm_num)
    (by norm_num [TIMEOUT]) (by norm_num [TIMEOUT])).1

/-! ## C8: inbound client protocol -/

/-- C8: bare text "ping" (after lower/strip) is answered with the bare text
"pong"; a JSON ping command with the pong envelope; a JSON status command
with the status envelope carrying the current client count and running
flag; malformed JSON and any other input produce no reply, and no inbound
frame ever changes the client registry (the connection stays open). -/
theorem c8_inbound_protocol (registry : List ℕ) (running : Bool) (ts : ℚ)
    (s : String) (parse : ParseOutcome) :
    (startsWithBrace s = false → pyLowerStrip s = "ping" →
      handle_inbound registry.length running ts s parse =
        some Reply.pongText) ∧
    (startsWithBrace s = false → pyLowerStrip s ≠ "ping" →
      handle_inbound registry.length running ts s parse = none) ∧
    (startsWithBrace s = true →
      handle_inbound registry.length running ts s (ParseOutcome.ok "ping") =
        some (Reply.pongEnvelope ts)) ∧
    (startsWithBrace s = true →
      handle_inbound registry.length running ts s (ParseOutcome.ok "status") =
        some (Reply.statusEnvelope registry.length running ts)) ∧
    (startsWithBrace s = true → ∀ cmd, cmd ≠ "ping" → cmd ≠ "status" →
      handle_inbound registry.length running ts s (ParseOutcome.ok cmd) =
        none) ∧
    (startsWithBrace s = true →
      handle_inbound registry.length running ts s ParseOutcome.malformed =
        none) ∧
    ((client_session_step registry running ts s parse).1 = registry) := by
  refine ⟨?_, ?_, ?_, ?_, ?_, ?_, rfl⟩ <;> intros <;> simp [handle_inbound, *]

/-- C8 witness: the bare text frame "PiNg " (lower/strip gives "ping") from
a client of a two-client server is answered with the bare "pong". -/
theorem c8_witness :
    handle_inbound 2 true 0 "PiNg " ParseOutcome.malformed =
      some Reply.pongText :=
  (c8_inbound_protocol [5, 7] true 0 "PiNg " ParseOutcome.malformed).1
    (by decide) (by decide)

/-! ## C9: lifecycle idempotence -/

/-- C9: stop() before any successful start() completes without raising, and
a publish after stop() is a safe no-op: it neither raises nor delivers any
event nor changes the state. -/
theorem c9_lifecycle (st : WSState) (sendOk : ℕ → Bool) :
    (stop initial_state =
      Except.ok { initial_state with running := false, stop_event := true }) ∧
    (∀ st2, stop st = Except.ok st2 →
      broadcast_alert_sync st2 sendOk = (st2, none)) := by
  refine ⟨rfl, ?_⟩
  intro st2 h
  rw [stop] at h
  injection h with h2
  subst h2
  simp [broadcast_alert_sync]

/-- C9 witness: stopping the freshly initialised hub and then publishing is
a no-op. -/
theorem c9_witness :
    broadcast_alert_sync
      { initial_state with running := false, stop_event := true }
      (fun _ => true) =
    ({ initial_state with running := false, stop_event := true }, none) :=
  (c9_lifecycle initial_state (fun _ => true)).2 _ rfl

/-! ## Helper lemmas for the forwarding claims -/

theorem append_meters_ne_empty (a : String) : a ++ " meters" ≠ "" := by
  intro h
  have hd : a.data ++ (" meters").data = [] := by
    have h2 := congrArg String.data h
    simpa [String.data_append] using h2
  have h3 := (List.append_eq_nil.mp hd).2
  exact absurd h3 (by decide)

theorem decide_alert_eq_critical (center : List String) (zm : Option String)
    (d : ℚ) (hc : d < ULTRASONIC_CRITICAL_DISTANCE) :
    decide_alert center (some d) zm =
      some { severity := Severity.critical,
             message := "Stop! " ++ (front_objects center).head?.getD "Obstacle" ++
               " ahead at " ++ fmt1 d ++ " meters",
             is_priority := true } := by
  cases center <;> simp [decide_alert, front_objects, hc]

theorem decide_alert_eq_warning (center : List String) (zm : Option String)
    (d : ℚ) (hc : ¬ d < ULTRASONIC_CRITICAL_DISTANCE)
    (hw : d < ULTRASONIC_WARNING_DISTANCE) :
    decide_alert center (some d) zm =
      some { severity := Severity.warning,
             message := "Warning: " ++ (front_objects center).head?.getD "Obstacle" ++
               " in front at " ++ fmt1 d ++ " meters",
             is_priority := true } := by
  cases center <;> simp [decide_alert, front_objects, hc, hw]

theorem decide_alert_eq_far (center : List String) (zm : Option String)
    (d : ℚ) (hc : ¬ d < ULTRASONIC_CRITICAL_DISTANCE)
    (hw : ¬ d < ULTRASONIC_WARNING_DISTANCE) :
    decide_alert center (some d) zm =
      zm.map (fun m =>
        { severity := Severity.info, message := m, is_priority := false }) := by
  simp [decide_alert, hc, hw]

theorem process_frame_eq_critical (center : List String) (d : ℚ)
    (zm : Option String) (wsP wsR : Bool)
    (hc : d < ULTRASONIC_CRITICAL_DISTANCE) :
    process_frame center (some d) zm wsP wsR =
      Action.announce ("Stop! " ++ (front_objects center).head?.getD "Obstacle" ++
          " ahead at " ++ fmt1 d ++ " meters") true ::
      (if wsP && wsR then
        [Action.publish "critical"
          ("Stop! " ++ (front_objects center).head?.getD "Obstacle" ++
            " ahead at " ++ fmt1 d ++ " meters")
          (some d) ((front_objects center).head?.getD "obstacle")]
      else []) := by
  have hd := decide_alert_eq_critical center zm d hc
  have hne := append_meters_ne_empty
    ("Stop! " ++ (front_objects center).head?.getD "Obstacle" ++ " ahead at " ++
      fmt1 d)
  simp only [process_frame, hd]
  simp [msg_or, hne, hc]

theorem process_frame_eq_warning (center : List String) (d : ℚ)
    (zm : Option String) (wsP wsR : Bool)
    (hc : ¬ d < ULTRASONIC_CRITICAL_DISTANCE)
    (hw : d < ULTRASONIC_WARNING_DISTANCE) :
    process_frame center (some d) zm wsP wsR =
      Action.announce ("Warning: " ++ (front_objects center).head?.getD "Obstacle" ++
          " in front at " ++ fmt1 d ++ " meters") true ::
      (if wsP && wsR then
        [Action.publish "warning"
          ("Warning: " ++ (front_objects center).head?.getD "Obstacle" ++
            " in front at " ++ fmt1 d ++ " meters")
          (some d) ((front_objects center).head?.getD "obstacle")]
      else []) := by
  have hd := decide_alert_eq_warning center zm d hc hw
  have hne := append_meters_ne_empty
    ("Warning: " ++ (front_objects center).head?.getD "Obstacle" ++
      " in front at " ++ fmt1 d)
  simp only [process_frame, hd]
  simp [msg_or, hne, hc, hw]

theorem process_frame_eq_far (center : List String) (d : ℚ)
    (zm : Option String) (wsP wsR : Bool)
    (hc : ¬ d < ULTRASONIC_CRITICAL_DISTANCE)
    (hw : ¬ d < ULTRASONIC_WARNING_DISTANCE) :
    process_frame center (some d) zm wsP wsR =
      (match zm with
       | some m => if m = "" then [] else [Action.announce m false]
       | none => []) := by
  cases zm with
  | none => simp [process_frame, decide_alert, hc, hw]
  | some m =>
    by_cases hm : m = "" <;> simp [process_frame, decide_alert, hc, hw, hm]

theorem process_frame_eq_none (center : List String) (zm : Option String)
    (wsP wsR : Bool) :
    process_frame center none zm wsP wsR =
      (match zm with
       | some m => if m = "" then [] else [Action.announce m false]
       | none => []) := by
  cases zm with
  | none => simp [process_frame, decide_alert]
  | some m =>
    by_cases hm : m = "" <;> simp [process_frame, decide_alert, hm]

/-! ## C2: forwarding of the decision -/

/-- C2 counterexample: with no reading and a zone message, the decision is
non-null (an info decision), the hub is present and running, yet the cycle
performs only the announcement — no publish reaches the hub, refuting "every
decision, critical, warning, and info alike, is broadcast". -/
theorem c2_counterexample :
    decide_alert [] none (some "path is clear") ≠ none ∧
    process_frame [] none (some "path is clear") true true =
      [Action.announce "path is clear" false] := by
  constructor
  · simp [decide_alert]
  · rfl

/-- C2 amended: every announced message is the decision's message and
priority, a truthy decision is announced exactly once, and a publish
happens iff the hub is present and running and the distance is valid and
below the warning threshold — in which case the cycle is exactly one
announce followed by one publish with the same message; info decisions are
never broadcast. -/
theorem c2_forwarding_amended (center : List String) (dist : Option ℚ)
    (zm : Option String) (wsP wsR : Bool) :
    (∀ m p, Action.announce m p ∈ process_frame center dist zm wsP wsR →
      ∃ d2, decide_alert center dist zm = some d2 ∧ m = d2.message ∧
        p = d2.is_priority) ∧
    (∀ d2, decide_alert center dist zm = some d2 → d2.message ≠ "" →
      (process_frame center dist zm wsP wsR).count
        (Action.announce d2.message d2.is_priority) = 1) ∧
    (∀ t m dq o,
      Action.publish t m dq o ∈ process_frame center dist zm wsP wsR →
      wsP = true ∧ wsR = true ∧
        ∃ d, dist = some d ∧ dq = some d ∧
          d < ULTRASONIC_WARNING_DISTANCE) ∧
    (∀ d2, decide_alert center dist zm = some d2 →
      d2.severity = Severity.info →
      ∀ t m dq o,
        Action.publish t m dq o ∉ process_frame center dist zm wsP wsR) ∧
    (wsP = true → wsR = true → ∀ d, dist = some d →
      d < ULTRASONIC_WARNING_DISTANCE →
      ∃ m t o, process_frame center dist zm wsP wsR =
        [Action.announce m true, Action.publish t m (some d) o]) := by
  refine ⟨?_, ?_, ?_, ?_, ?_⟩
  · -- announce provenance
    intro m p hmem
    rcases dist with _ | d
    · rw [process_frame_eq_none] at hmem
      rcases zm with _ | m0
      · simp at hmem
      · by_cases hm0 : m0 = ""
        · simp [hm0] at hmem
        · simp [hm0] at hmem
          exact ⟨⟨Severity.info, m0, false⟩, rfl, hmem.1, hmem.2⟩
    · by_cases hc : d < ULTRASONIC_CRITICAL_DISTANCE
      · rw [process_frame_eq_critical center d zm wsP wsR hc] at hmem
        rcases List.mem_cons.mp hmem with h | h
        · simp at h
          exact ⟨_, decide_alert_eq_critical center zm d hc, h.1, h.2⟩
        · by_cases hws : (wsP && wsR) = true <;> simp [hws] at h
      · by_cases hw : d < ULTRASONIC_WARNING_DISTANCE
        · rw [process_frame_eq_warning center d zm wsP wsR hc hw] at hmem
          rcases List.mem_cons.mp hmem with h | h
          · simp at h
            exact ⟨_, decide_alert_eq_warning center zm d hc hw, h.1, h.2⟩
          · by_cases hws : (wsP && wsR) = true <;> simp [hws] at h
        · rw [process_frame_eq_far center d zm wsP wsR hc hw] at hmem
          rcases zm with _ | m0
          · simp at hmem
          · by_cases hm0 : m0 = ""
            · simp [hm0] at hmem
            · simp [hm0] at hmem
              refine ⟨⟨Severity.info, m0, false⟩, ?_, hmem.1, hmem.2⟩
              rw [decide_alert_eq_far center (some m0) d hc hw]
              rfl
  · -- a truthy decision is announced exactly once
    intro d2 hdec hne2
    rcases dist with _ | d
    · rw [process_frame_eq_none]
      rcases zm with _ | m0
      · exact absurd hdec (by simp [decide_alert])
      · have h0 : decide_alert center none (some m0) =
            some ⟨Severity.info, m0, false⟩ := rfl
        rw [h0] at hdec
        have hd2 := (Option.some.inj hdec).symm
        subst hd2
        simp only at hne2
        simp [hne2]
    · by_cases hc : d < ULTRASONIC_CRITICAL_DISTANCE
      · rw [process_frame_eq_critical center d zm wsP wsR hc]
        have hd2 := (Option.some.inj
          ((decide_alert_eq_critical center zm d hc).symm.trans hdec)).symm
        subst hd2
        by_cases hws : (wsP && wsR) = true <;>
          simp [hws, List.count_cons]
      · by_cases hw : d < ULTRASONIC_WARNING_DISTANCE
        · rw [process_frame_eq_warning center d zm wsP wsR hc hw]
          have hd2 := (Option.some.inj
            ((decide_alert_eq_warning center zm d hc hw).symm.trans hdec)).symm
          subst hd2
          by_cases hws : (wsP && wsR) = true <;>
            simp [hws, List.count_cons]
        · rw [process_frame_eq_far center d zm wsP wsR hc hw]
          rw [decide_alert_eq_far center zm d hc hw] at hdec
          rcases zm with _ | m0
          · simp at hdec
          · have hd2 := (Option.some.inj hdec).symm
            subst hd2
            simp only at hne2
            simp [hne2]
  · -- publish provenance
    intro t m dq o hmem
    rcases dist with _ | d
    · rw [process_frame_eq_none] at hmem
      rcases zm with _ | m0
      · simp at hmem
      · by_cases hm0 : m0 = "" <;> simp [hm0] at hmem
    · by_cases hc : d < ULTRASONIC_CRITICAL_DISTANCE
      · rw [process_frame_eq_critical center d zm wsP wsR hc] at hmem
        rcases List.mem_cons.mp hmem with h | h
        · simp at h
        · by_cases hws : (wsP && wsR) = true
          · simp [hws] at h
            have hb : wsP = true ∧ wsR = true := by simpa using hws
            refine ⟨hb.1, hb.2, d, rfl, h.2.2.1.symm ▸ rfl, ?_⟩
            · rw [ULTRASONIC_WARNING_DISTANCE]
              rw [ULTRASONIC_CRITICAL_DISTANCE] at hc
              linarith
          · simp [hws] at h
      · by_cases hw : d < ULTRASONIC_WARNING_DISTANCE
        · rw [process_frame_eq_warning center d zm wsP wsR hc hw] at hmem
          rcases List.mem_cons.mp hmem with h | h
          · simp at h
          · by_cases hws : (wsP && wsR) = true
            · simp [hws] at h
              have hb : wsP = true ∧ wsR = true := by simpa using hws
              exact ⟨hb.1, hb.2, d, rfl, h.2.2.1.symm ▸ rfl, hw⟩
            · simp [hws] at h
        · rw [process_frame_eq_far center d zm wsP wsR hc hw] at hmem
          rcases zm with _ | m0
          · simp at hmem
          · by_cases hm0 : m0 = "" <;> simp [hm0] at hmem
  · -- info decisions are never broadcast
    intro d2 hdec hsev t m dq o hmem
    rcases dist with _ | d
    · rw [process_frame_eq_none] at hmem
      rcases zm with _ | m0
      · simp at hmem
      · by_cases hm0 : m0 = "" <;> simp [hm0] at hmem
    · by_cases hc : d < ULTRASONIC_CRITICAL_DISTANCE
      · rw [decide_alert_eq_critical center zm d hc] at hdec
        have hd2 := (Option.some.inj hdec).symm
        subst hd2
        simp at hsev
      · by_cases hw : d < ULTRASONIC_WARNING_DISTANCE
        · rw [decide_alert_eq_warning center zm d hc hw] at hdec
          have hd2 := (Option.some.inj hdec).symm
          subst hd2
          simp at hsev
        · rw [process_frame_eq_far center d zm wsP wsR hc hw] at hmem
          rcases zm with _ | m0
          · simp at hmem
          · by_cases hm0 : m0 = "" <;> simp [hm0] at hmem
  · -- with the hub running, a near distance yields announce-then-publish
    intro hwsP hwsR d hdist hw2
    subst hdist
    subst hwsP
    subst hwsR
    by_cases hc : d < ULTRASONIC_CRITICAL_DISTANCE
    · refine ⟨"Stop! " ++ (front_objects center).head?.getD "Obstacle" ++
        " ahead at " ++ fmt1 d ++ " meters", "critical",
        (front_objects center).head?.getD "obstacle", ?_⟩
      rw [process_frame_eq_critical center d zm true true hc]
      rfl
    · refine ⟨"Warning: " ++ (front_objects center).head?.getD "Obstacle" ++
        " in front at " ++ fmt1 d ++ " meters", "warning",
        (front_objects center).head?.getD "obstacle", ?_⟩
      rw [process_frame_eq_warning center d zm true true hc hw2]
      rfl

/-- C2 witness: instantiation of the amended claim — distance 1.5 with the
hub running gives exactly one announce followed by one publish of the same
message. -/
theorem c2_witness :
    ∃ m t o, process_frame ["chair"] (some (3/2)) none true true =
      [Action.announce m true, Action.publish t m (some (3/2)) o] :=
  (c2_forwarding_amended ["chair"] (some (3/2)) none true true).2.2.2.2
    rfl rfl (3/2) rfl (by norm_num [ULTRASONIC_WARNING_DISTANCE])

/-! ## C10: object-name agreement between announcement and broadcast -/

/-- C10: whenever a cycle hands a critical or warning event to the hub, the
object_name field and the object named in the spoken message agree — both
come from the head of the single front-objects list computed for that
cycle, and both fall back to the generic obstacle name when it is empty;
moreover the broadcast message is exactly the announced message. -/
theorem c10_object_name_coherence (center : List String) (dist : Option ℚ)
    (zm : Option String) (wsP wsR : Bool) :
    ∀ t m dq o,
      Action.publish t m dq o ∈ process_frame center dist zm wsP wsR →
      (∃ p, Action.announce m p ∈ process_frame center dist zm wsP wsR) ∧
      o = (front_objects center).head?.getD "obstacle" ∧
      ∃ d, dist = some d ∧
        (∀ obj rest, front_objects center = obj :: rest →
          o = obj ∧
          (t = "critical" →
            m = "Stop! " ++ obj ++ " ahead at " ++ fmt1 d ++ " meters") ∧
          (t = "warning" →
            m = "Warning: " ++ obj ++ " in front at " ++ fmt1 d ++
              " meters")) ∧
        (front_objects center = [] →
          o = "obstacle" ∧
          (t = "critical" →
            m = "Stop! Obstacle ahead at " ++ fmt1 d ++ " meters") ∧
          (t = "warning" →
            m = "Warning: Obstacle in front at " ++ fmt1 d ++ " meters")) := by
  intro t m dq o hmem
  rcases dist with _ | d
  · exfalso
    rw [process_frame_eq_none] at hmem
    rcases zm with _ | m0
    · simp at hmem
    · by_cases hm0 : m0 = "" <;> simp [hm0] at hmem
  · by_cases hc : d < ULTRASONIC_CRITICAL_DISTANCE
    · rw [process_frame_eq_critical center d zm wsP wsR hc] at hmem
      rcases List.mem_cons.mp hmem with h | h
      · simp at h
      · by_cases hws : (wsP && wsR) = true
        · simp only [hws, if_true] at h
          simp at h
          obtain ⟨ht, hm, _, ho⟩ := h
          subst ht
          subst hm
          subst ho
          refine ⟨⟨true, ?_⟩, rfl, d, rfl, ?_, ?_⟩
          · rw [process_frame_eq_critical center d zm wsP wsR hc]
            exact List.mem_cons_self _ _
          · intro obj rest hfo
            rw [hfo]
            exact ⟨rfl, fun _ => rfl, fun hcon => absurd hcon (by simp)⟩
          · intro hfo
            rw [hfo]
            exact ⟨rfl, fun _ => rfl, fun hcon => absurd hcon (by simp)⟩
        · simp [hws] at h
    · by_cases hw : d < ULTRASONIC_WARNING_DISTANCE
      · rw [process_frame_eq_warning center d zm wsP wsR hc hw] at hmem
        rcases List.mem_cons.mp hmem with h | h
        · simp at h
        · by_cases hws : (wsP && wsR) = true
          · simp only [hws, if_true] at h
            simp at h
            obtain ⟨ht, hm, _, ho⟩ := h
            subst ht
            subst hm
            subst ho
            refine ⟨⟨true, ?_⟩, rfl, d, rfl, ?_, ?_⟩
            · rw [process_frame_eq_warning center d zm wsP wsR hc hw]
              exact List.mem_cons_self _ _
            · intro obj rest hfo
              rw [hfo]
              exact ⟨rfl, fun hcon => absurd hcon (by simp), fun _ => rfl⟩
            · intro hfo
              rw [hfo]
              exact ⟨rfl, fun hcon => absurd hcon (by simp), fun _ => rfl⟩
          · simp [hws] at h
      · exfalso
        rw [process_frame_eq_far center d zm wsP wsR hc hw] at hmem
        rcases zm with _ | m0
        · simp at hmem
        · by_cases hm0 : m0 = "" <;> simp [hm0] at hmem

/-- C10 witness: at distance 1.5 with center object "chair", the published
event's message is also announced (the two computations agree on the same
cycle). -/
theorem c10_witness :
    ∃ p, Action.announce
        ("Stop! " ++ (front_objects ["chair"]).head?.getD "Obstacle" ++
          " ahead at " ++ fmt1 (3/2) ++ " meters") p ∈
      process_frame ["chair"] (some (3/2)) none true true := by
  have hmem : Action.publish "critical"
      ("Stop! " ++ (front_objects ["chair"]).head?.getD "Obstacle" ++
        " ahead at " ++ fmt1 (3/2) ++ " meters")
      (some (3/2)) ((front_objects ["chair"]).head?.getD "obstacle") ∈
      process_frame ["chair"] (some (3/2)) none true true := by
    rw [process_frame_eq_critical ["chair"] (3/2) none true true
      (by norm_num [ULTRASONIC_CRITICAL_DISTANCE])]
    simp
  exact (c10_object_name_coherence ["chair"] (some (3/2)) none true true
    "critical" _ (some (3/2)) _ hmem).1

end RpiNav
